import Mathlib

/-!
Shallow embedding of `src/examples/sample_code/user_auth.py`.

The Python module defines a class `UserAuth` holding an in-memory dict
`self.users : username ↦ record`, where each record is a dict with keys
`'password'` (the hex digest of `hashlib.sha256(password.encode())`),
`'created_at'` (the value of `time.time()` at creation) and
`'failed_attempts'` (a Python int, initialised to 0 and incremented on a
failed authentication).

We model the dict as a function `String → Option UserRecord`.  The SHA-256
hex digest is a pure deterministic function of its input string, so we
parameterise every operation by an abstract `hash : String → String`; the
wall clock read `time.time()` is passed in explicitly as `now : Nat`.
Python ints are modelled by `Int`.
-/

namespace UserAuth

/-- One value of the inner dict `self.users[username]`:
`{'password': ..., 'created_at': ..., 'failed_attempts': ...}`. -/
structure UserRecord where
  password : String
  created_at : Nat
  failed_attempts : Int
deriving Repr, DecidableEq

/-- The in-memory mapping `self.users`. -/
def Store := String → Option UserRecord

/-- The dict with no entries: the state after `__init__` (`self.users = {}`). -/
def emptyStore : Store := fun _ => none

/-- Dict insertion / overwrite `self.users[username] = rec`. -/
def Store.insert (users : Store) (username : String) (rec : UserRecord) : Store :=
  fun u => if u = username then some rec else users u

/-- `UserAuth.create_user(self, username, password)` from the source.
Returns the Python return value (`True`/`False`) together with the
post-state of `self.users`. -/
def create_user (hash : String → String) (now : Nat) (users : Store)
    (username password : String) : Bool × Store :=
  if (users username).isSome then
    (false, users)
  else
    let hashed_password := hash password
    (true, users.insert username ⟨hashed_password, now, 0⟩)

/-- `UserAuth.authenticate(self, username, password)` from the source.
Returns the Python return value together with the post-state of
`self.users`.  On a hash mismatch the source mutates the record in place
(`user['failed_attempts'] += 1`), which we render as re-inserting the
updated record under the same key. -/
def authenticate (hash : String → String) (users : Store)
    (username password : String) : Bool × Store :=
  match users username with
  | none => (false, users)
  | some user =>
    let hashed_password := hash password
    if user.password = hashed_password then
      (true, users)
    else
      (false, users.insert username { user with failed_attempts := user.failed_attempts + 1 })

/-- `UserAuth.login(self, username, password)` from the source: the
deprecated legacy method, whose body is `return self.authenticate(username, password)`. -/
def login (hash : String → String) (users : Store)
    (username password : String) : Bool × Store :=
  authenticate hash users username password

/-- One call on a `UserAuth` object, with the wall-clock reading a call to
`create_user` makes baked in. -/
inductive Op where
  | create (now : Nat) (username password : String)
  | auth (username password : String)
  | legacyLogin (username password : String)

/-- The post-state of `self.users` after one method call. -/
def applyOp (hash : String → String) (users : Store) : Op → Store
  | .create now username password => (create_user hash now users username password).2
  | .auth username password => (authenticate hash users username password).2
  | .legacyLogin username password => (login hash users username password).2

/-- The state of `self.users` after a sequence of method calls on a freshly
constructed `UserAuth` object. -/
def runOps (hash : String → String) (ops : List Op) : Store :=
  ops.foldl (applyOp hash) emptyStore

/-- Helper used in witnesses: a concrete store holding one user `alice`
whose stored hash (under `hash := id`) is `pw` and whose counter is 3. -/
def aliceStore : Store :=
  emptyStore.insert "alice" ⟨"pw", 10, 3⟩

/-- Repeated failed attempts: `failN hash username wrong n users` is the
store after `n` consecutive calls `authenticate(username, wrong)`. -/
def failN (hash : String → String) (username wrong : String) : Nat → Store → Store
  | 0, users => users
  | n + 1, users => failN hash username wrong n (authenticate hash users username wrong).2

/-! Helper lemmas: the three branches of `authenticate`. -/

theorem authenticate_absent_eq (hash : String → String) (users : Store)
    (username secret : String) (hu : users username = none) :
    authenticate hash users username secret = (false, users) := by
  simp [authenticate, hu]

theorem authenticate_match_eq (hash : String → String) (users : Store)
    (username secret : String) (r : UserRecord)
    (hu : users username = some r) (hm : r.password = hash secret) :
    authenticate hash users username secret = (true, users) := by
  simp [authenticate, hu, hm]

theorem authenticate_mismatch_eq (hash : String → String) (users : Store)
    (username secret : String) (r : UserRecord)
    (hu : users username = some r) (hm : r.password ≠ hash secret) :
    authenticate hash users username secret =
      (false, users.insert username ⟨r.password, r.created_at, r.failed_attempts + 1⟩) := by
  simp [authenticate, hu, hm]

end UserAuth

namespace UserAuth

/-- C1: if a username already exists in the store, a second `create_user`
call for it returns the failure value `False` and returns the store
unchanged — in particular the existing record and its stored hash are
untouched. -/
theorem create_user_duplicate_unchanged (hash : String → String) (now : Nat)
    (users : Store) (username secret : String)
    (h : (users username).isSome = true) :
    create_user hash now users username secret = (false, users) := by
  simp [create_user, h]

/-- Witness for C1: the duplicate-creation theorem at a concrete store
already containing `alice`. -/
theorem create_user_duplicate_unchanged_witness :
    (aliceStore "alice").isSome = true ∧
    create_user id 0 aliceStore "alice" "other" = (false, aliceStore) :=
  ⟨by decide, create_user_duplicate_unchanged id 0 aliceStore "alice" "other" (by decide)⟩

/-- C2: if `create_user(username, secret)` succeeds, then
`authenticate(username, secret)` — the code's verify operation — run
immediately afterwards on the resulting store returns `True`. -/
theorem create_then_verify_succeeds (hash : String → String) (now : Nat)
    (users : Store) (username secret : String)
    (h : (create_user hash now users username secret).1 = true) :
    (authenticate hash (create_user hash now users username secret).2 username secret).1 = true := by
  cases hu : users username with
  | some r => simp [create_user, hu] at h
  | none => simp [create_user, hu, authenticate, Store.insert]

/-- Witness for C2: create `alice` on the empty store, then authenticate. -/
theorem create_then_verify_succeeds_witness :
    (create_user id 0 emptyStore "alice" "pw").1 = true ∧
    (authenticate id (create_user id 0 emptyStore "alice" "pw").2 "alice" "pw").1 = true :=
  ⟨by decide, create_then_verify_succeeds id 0 emptyStore "alice" "pw" (by decide)⟩

/-- C3: authenticating an existing username with a secret whose hash does
not match the stored hash returns `False`, increments that record's
failed-attempt counter by exactly one while keeping its other fields, and
leaves every other record unchanged. -/
theorem authenticate_wrong_secret (hash : String → String) (users : Store)
    (username secret : String) (r : UserRecord)
    (hr : users username = some r) (hne : r.password ≠ hash secret) :
    (authenticate hash users username secret).1 = false ∧
    (authenticate hash users username secret).2 username =
      some ⟨r.password, r.created_at, r.failed_attempts + 1⟩ ∧
    ∀ u, u ≠ username → (authenticate hash users username secret).2 u = users u := by
  rw [authenticate_mismatch_eq hash users username secret r hr hne]
  refine ⟨rfl, by simp [Store.insert], ?_⟩
  intro u hu
  simp [Store.insert, hu]

/-- Witness for C3: a wrong secret against the concrete `aliceStore`. -/
theorem authenticate_wrong_secret_witness :
    (authenticate id aliceStore "alice" "wrong").1 = false ∧
    (authenticate id aliceStore "alice" "wrong").2 "alice" = some ⟨"pw", 10, 3 + 1⟩ :=
  ⟨(authenticate_wrong_secret id aliceStore "alice" "wrong" ⟨"pw", 10, 3⟩ (by decide) (by decide)).1,
   (authenticate_wrong_secret id aliceStore "alice" "wrong" ⟨"pw", 10, 3⟩ (by decide) (by decide)).2.1⟩

/-- C4 (counterexample): a successful verification does NOT reset the
failed-attempt counter to zero: with `alice` at counter 3, authenticating
with the correct secret succeeds but leaves the counter at 3. -/
theorem authenticate_success_no_reset_counterexample :
    (authenticate id aliceStore "alice" "pw").1 = true ∧
    (authenticate id aliceStore "alice" "pw").2 "alice" = some ⟨"pw", 10, 3⟩ ∧
    (authenticate id aliceStore "alice" "pw").2 "alice" ≠ some ⟨"pw", 10, 0⟩ := by
  decide

/-- C4 (amended): a successful verification leaves the store — and hence
the failed-attempt counter, whatever its prior value — entirely unchanged. -/
theorem authenticate_success_unchanged (hash : String → String) (users : Store)
    (username secret : String) (r : UserRecord)
    (hr : users username = some r) (hm : r.password = hash secret) :
    authenticate hash users username secret = (true, users) :=
  authenticate_match_eq hash users username secret r hr hm

/-- Witness for the amended C4 at the concrete `aliceStore`. -/
theorem authenticate_success_unchanged_witness :
    aliceStore "alice" = some ⟨"pw", 10, 3⟩ ∧
    authenticate id aliceStore "alice" "pw" = (true, aliceStore) :=
  ⟨by decide, authenticate_success_unchanged id aliceStore "alice" "pw" ⟨"pw", 10, 3⟩ (by decide) (by decide)⟩

/-- C5 (counterexample): there is no lockout. Create `alice`, make 5
consecutive failed attempts (the counter reaches 5), then a verification
with the correct secret still returns success rather than a locked-account
failure. -/
theorem lockout_counterexample :
    failN id "alice" "bad" 5 (create_user id 0 emptyStore "alice" "pw").2 "alice" =
      some ⟨"pw", 0, 5⟩ ∧
    (authenticate id (failN id "alice" "bad" 5 (create_user id 0 emptyStore "alice" "pw").2)
      "alice" "pw").1 = true := by
  decide

/-- C5 (amended): after `n` consecutive failed attempts the failed-attempt
counter grows by `n`, but the account never becomes locked: a further
verification presenting the correct secret still returns success, for
every `n`. -/
theorem no_lockout (hash : String → String) (users : Store)
    (username secret wrong : String) (r : UserRecord) (n : Nat)
    (hr : users username = some r) (hw : r.password ≠ hash wrong)
    (hm : r.password = hash secret) :
    failN hash username wrong n users username =
      some ⟨r.password, r.created_at, r.failed_attempts + n⟩ ∧
    (authenticate hash (failN hash username wrong n users) username secret).1 = true := by
  induction n generalizing users r with
  | zero =>
    refine ⟨?_, ?_⟩
    · simpa [failN] using hr
    · rw [failN, authenticate_match_eq hash users username secret r hr hm]
  | succ n ih =>
    have hstep := authenticate_mismatch_eq hash users username wrong r hr hw
    have hr' : (users.insert username ⟨r.password, r.created_at, r.failed_attempts + 1⟩)
        username = some ⟨r.password, r.created_at, r.failed_attempts + 1⟩ := by
      simp [Store.insert]
    have hrec := ih (users.insert username ⟨r.password, r.created_at, r.failed_attempts + 1⟩)
      ⟨r.password, r.created_at, r.failed_attempts + 1⟩ hr' hw hm
    rw [failN, hstep]
    refine ⟨?_, hrec.2⟩
    rw [hrec.1]
    simp [UserRecord.mk.injEq]
    ring

/-- Witness for the amended C5: two failed attempts against `aliceStore`
take the counter from 3 to 5, and the correct secret still succeeds. -/
theorem no_lockout_witness :
    failN id "alice" "bad" 2 aliceStore "alice" = some ⟨"pw", 10, 5⟩ ∧
    (authenticate id (failN id "alice" "bad" 2 aliceStore) "alice" "pw").1 = true := by
  have h := no_lockout id aliceStore "alice" "pw" "bad" ⟨"pw", 10, 3⟩ 2
    (by decide) (by decide) (by decide)
  exact ⟨by simpa using h.1, h.2⟩

/-- C6 (counterexample): two distinct usernames created with the same
secret do NOT get different stored hashes: the code uses no salt, so both
records hold the hash of the shared secret and the hashes coincide. -/
theorem fresh_salt_counterexample :
    ("alice" : String) ≠ "bob" ∧
    ((create_user id 1 (create_user id 0 emptyStore "alice" "pw").2 "bob" "pw").2 "alice").map
        UserRecord.password =
      ((create_user id 1 (create_user id 0 emptyStore "alice" "pw").2 "bob" "pw").2 "bob").map
        UserRecord.password := by
  decide

/-- C6 (amended): when two usernames are created in sequence with the same
secret (both creations succeeding), the two stored hashes are equal — each
is the bare hash of the shared secret, since the code mixes in no salt. -/
theorem same_secret_same_hash (hash : String → String) (now1 now2 : Nat)
    (users : Store) (username1 username2 secret : String)
    (h1 : (create_user hash now1 users username1 secret).1 = true)
    (h2 : (create_user hash now2 (create_user hash now1 users username1 secret).2
      username2 secret).1 = true) :
    ((create_user hash now2 (create_user hash now1 users username1 secret).2
        username2 secret).2 username1).map UserRecord.password = some (hash secret) ∧
    ((create_user hash now2 (create_user hash now1 users username1 secret).2
        username2 secret).2 username2).map UserRecord.password = some (hash secret) := by
  cases hu1 : users username1 with
  | some r => simp [create_user, hu1] at h1
  | none =>
    have hs1 : (create_user hash now1 users username1 secret).2 =
        users.insert username1 ⟨hash secret, now1, 0⟩ := by
      simp [create_user, hu1]
    rw [hs1] at h2 ⊢
    cases hu2 : (users.insert username1 ⟨hash secret, now1, 0⟩) username2 with
    | some r => simp [create_user, hu2] at h2
    | none =>
      have hne : username1 ≠ username2 := by
        intro he
        rw [← he] at hu2
        simp [Store.insert] at hu2
      have hs2 : (create_user hash now2 (users.insert username1 ⟨hash secret, now1, 0⟩)
          username2 secret).2 =
          (users.insert username1 ⟨hash secret, now1, 0⟩).insert username2
            ⟨hash secret, now2, 0⟩ := by
        simp [create_user, hu2]
      rw [hs2]
      constructor
      · simp [Store.insert, hne]
      · simp [Store.insert]

/-- Witness for the amended C6: `alice` and `bob` created with secret `pw`
on the empty store both end up with stored hash `pw` (under `hash := id`). -/
theorem same_secret_same_hash_witness :
    ((create_user id 1 (create_user id 0 emptyStore "alice" "pw").2 "bob" "pw").2 "alice").map
        UserRecord.password = some (id "pw") ∧
    ((create_user id 1 (create_user id 0 emptyStore "alice" "pw").2 "bob" "pw").2 "bob").map
        UserRecord.password = some (id "pw") :=
  same_secret_same_hash id 0 1 emptyStore "alice" "bob" "pw" (by decide) (by decide)

/-- C7 (counterexample): an empty secret is not rejected: `create_user`
with the empty string succeeds and inserts a record for the username. -/
theorem empty_secret_counterexample :
    (create_user id 0 emptyStore "alice" "").1 = true ∧
    ((create_user id 0 emptyStore "alice" "").2 "alice").isSome = true := by
  decide

/-- C7 (amended): `create_user` performs no secret validation: on a fresh
username an empty secret succeeds and inserts a record whose stored hash
is the hash of the empty string. -/
theorem create_user_empty_secret (hash : String → String) (now : Nat)
    (users : Store) (username : String) (h : users username = none) :
    create_user hash now users username "" =
      (true, users.insert username ⟨hash "", now, 0⟩) := by
  simp [create_user, h]

/-- Witness for the amended C7 on the empty store. -/
theorem create_user_empty_secret_witness :
    emptyStore "alice" = none ∧
    create_user id 0 emptyStore "alice" "" =
      (true, emptyStore.insert "alice" ⟨id "", 0, 0⟩) :=
  ⟨rfl, create_user_empty_secret id 0 emptyStore "alice" rfl⟩

/-! Helper development for the reachability invariant (C8). -/

/-- Every record of the store has a non-negative failed-attempt counter. -/
def counterNonneg (users : Store) : Prop :=
  ∀ u r, users u = some r → 0 ≤ r.failed_attempts

theorem counterNonneg_empty : counterNonneg emptyStore := by
  intro u r h
  simp [emptyStore] at h

theorem counterNonneg_insert (users : Store) (username : String) (rec : UserRecord)
    (h : counterNonneg users) (hrec : 0 ≤ rec.failed_attempts) :
    counterNonneg (users.insert username rec) := by
  intro u r hr
  by_cases he : u = username
  · simp [Store.insert, he] at hr
    exact hr ▸ hrec
  · simp [Store.insert, he] at hr
    exact h u r hr

theorem counterNonneg_authenticate (hash : String → String) (users : Store)
    (username password : String) (h : counterNonneg users) :
    counterNonneg (authenticate hash users username password).2 := by
  cases hu : users username with
  | none =>
    rw [authenticate_absent_eq hash users username password hu]
    exact h
  | some r0 =>
    by_cases hm : r0.password = hash password
    · rw [authenticate_match_eq hash users username password r0 hu hm]
      exact h
    · rw [authenticate_mismatch_eq hash users username password r0 hu hm]
      refine counterNonneg_insert users username _ h ?_
      have h0 := h username r0 hu
      show 0 ≤ r0.failed_attempts + 1
      omega

theorem counterNonneg_applyOp (hash : String → String) (users : Store) (op : Op)
    (h : counterNonneg users) : counterNonneg (applyOp hash users op) := by
  cases op with
  | create now username password =>
    cases hu : users username with
    | some r0 =>
      have heq : applyOp hash users (.create now username password) = users := by
        simp [applyOp, create_user, hu]
      rw [heq]
      exact h
    | none =>
      have heq : applyOp hash users (.create now username password) =
          users.insert username ⟨hash password, now, 0⟩ := by
        simp [applyOp, create_user, hu]
      rw [heq]
      exact counterNonneg_insert users username ⟨hash password, now, 0⟩ h le_rfl
  | auth username password =>
    exact counterNonneg_authenticate hash users username password h
  | legacyLogin username password =>
    exact counterNonneg_authenticate hash users username password h

/-- C8: the failed-attempt counter of every record of every store reachable
from the empty store by create_user / authenticate / login calls is a
non-negative integer. -/
theorem runOps_counter_nonneg (hash : String → String) (ops : List Op)
    (u : String) (r : UserRecord) (h : runOps hash ops u = some r) :
    0 ≤ r.failed_attempts := by
  have main : ∀ (l : List Op) (users : Store), counterNonneg users →
      counterNonneg (l.foldl (applyOp hash) users) := by
    intro l
    induction l with
    | nil => intro users hu; exact hu
    | cons op rest ih =>
      intro users hu
      exact ih (applyOp hash users op) (counterNonneg_applyOp hash users op hu)
  exact main ops emptyStore counterNonneg_empty u r h

/-- Witness for C8 on a concrete one-operation run. -/
theorem runOps_counter_nonneg_witness :
    runOps id [Op.create 0 "alice" "pw"] "alice" = some ⟨"pw", 0, 0⟩ ∧
    (0 : Int) ≤ (⟨"pw", 0, 0⟩ : UserRecord).failed_attempts :=
  ⟨by decide,
   runOps_counter_nonneg id [Op.create 0 "alice" "pw"] "alice" ⟨"pw", 0, 0⟩ (by decide)⟩

/-- C9: frame property of authenticate: it never inserts or removes a
record, never touches any record other than the queried username, never
changes a password hash or creation timestamp; on an unknown username or
a successful match the store is fully unchanged, and on a mismatch the
only change is the queried record's counter growing by one. -/
theorem authenticate_frame (hash : String → String) (users : Store)
    (username secret : String) :
    (∀ u, ((authenticate hash users username secret).2 u).isSome = (users u).isSome) ∧
    (∀ u, u ≠ username → (authenticate hash users username secret).2 u = users u) ∧
    (∀ r r', users username = some r →
      (authenticate hash users username secret).2 username = some r' →
      r'.password = r.password ∧ r'.created_at = r.created_at) ∧
    (users username = none → (authenticate hash users username secret).2 = users) ∧
    (∀ r, users username = some r → r.password = hash secret →
      (authenticate hash users username secret).2 = users) ∧
    (∀ r, users username = some r → r.password ≠ hash secret →
      (authenticate hash users username secret).2 username =
        some ⟨r.password, r.created_at, r.failed_attempts + 1⟩) := by
  cases hu : users username with
  | none =>
    rw [authenticate_absent_eq hash users username secret hu]
    refine ⟨fun u => rfl, fun u _ => rfl, ?_, fun _ => rfl, fun r hr _ => rfl, ?_⟩
    · intro r r' hr hr'
      exact Option.noConfusion hr
    · intro r hr
      exact Option.noConfusion hr
  | some r0 =>
    by_cases hm : r0.password = hash secret
    · rw [authenticate_match_eq hash users username secret r0 hu hm]
      refine ⟨fun u => rfl, fun u _ => rfl, ?_, ?_, fun r hr _ => rfl, ?_⟩
      · intro r r' hr hr'
        injection hr with h1
        subst h1
        have hr2 : users username = some r' := hr'
        rw [hu] at hr2
        injection hr2 with h2
        subst h2
        exact ⟨rfl, rfl⟩
      · intro hnone
        exact Option.noConfusion hnone
      · intro r hr hne
        injection hr with h1
        subst h1
        exact absurd hm hne
    · rw [authenticate_mismatch_eq hash users username secret r0 hu hm]
      refine ⟨?_, ?_, ?_, ?_, ?_, ?_⟩
      · intro u
        by_cases he : u = username
        · subst he
          simp [Store.insert, hu]
        · simp [Store.insert, he]
      · intro u he
        simp [Store.insert, he]
      · intro r r' hr hr'
        injection hr with h1
        subst h1
        have hr2 : users.insert username
            ⟨r0.password, r0.created_at, r0.failed_attempts + 1⟩ username = some r' := hr'
        simp [Store.insert] at hr2
        rw [← hr2]
        exact ⟨rfl, rfl⟩
      · intro hnone
        exact Option.noConfusion hnone
      · intro r hr hmm
        injection hr with h1
        subst h1
        exact absurd hmm hm
      · intro r hr hne
        injection hr with h1
        subst h1
        simp [Store.insert]

/-- Witness for C9: a record other than the queried one is untouched. -/
theorem authenticate_frame_witness :
    ("bob" : String) ≠ "alice" ∧
    (authenticate id aliceStore "alice" "x").2 "bob" = aliceStore "bob" :=
  ⟨by decide, (authenticate_frame id aliceStore "alice" "x").2.1 "bob" (by decide)⟩

/-- C10: the deprecated login method returns the same result value and the
same post-state as authenticate on every hash function, store, username
and secret: the two operations are observationally equivalent. -/
theorem login_eq_authenticate (hash : String → String) (users : Store)
    (username secret : String) :
    login hash users username secret = authenticate hash users username secret := rfl

end UserAuth
